import Mathlib

/-!
Verification development for the DeathToll stats tracker (src/main.py).

The Python module ingests an append-only remote event log through a
byte-offset read primitive (`download_log_tail`), splits new content into
lines, decodes each line into an event, deduplicates events through the
module-level `last_events` set, routes events to per-kind handlers
(`handle_discord_event` and friends) that mutate the per-player aggregate
state `player_stats`, renders leaderboards (`send_leaderboard`) and persists
a snapshot (`save_player_stats`).

The embedding below translates that code into pure Lean functions.  Python
dicts that preserve insertion order are modelled as association lists with
`lookup?` / `setKey` / `updateKey`; float arithmetic on survival hours is
modelled over the rationals; byte strings are modelled as lists of
characters.  External collaborators (the FTP transport, `json.loads`, the
Discord webhook, the file system) are modelled at their interfaces: the
transport as a `RemoteLog` value, `json.loads` as a decode function passed
in as a parameter, notifications as a counter, and the snapshot write as a
trace of file-system operations.
-/

/-- Association list lookup with string keys, modelling Python dict access
`d[k]` / `k in d` (first binding wins; the lists built below have unique
keys). -/
def lookup? {α : Type} : List (String × α) → String → Option α
  | [], _ => none
  | p :: rest, k => if p.1 = k then some p.2 else lookup? rest k

/-- Python `d.get(k, 0)` for int-valued dicts (skill maps, milestones). -/
def lookup0 (l : List (String × Int)) (k : String) : Int :=
  (lookup? l k).getD 0

/-- Python `d[k] = v`: update the existing binding in place, or append a new
binding at the end (dicts preserve insertion order). -/
def setKey {α : Type} : List (String × α) → String → α → List (String × α)
  | [], k, v => [(k, v)]
  | p :: rest, k, v => if p.1 = k then (k, v) :: rest else p :: setKey rest k v

/-- Python in-place mutation of the value stored at key `k` (used for
`player_stats[username]` record updates). -/
def updateKey {α : Type} : List (String × α) → String → (α → α) → List (String × α)
  | [], _, _ => []
  | p :: rest, k, f => if p.1 = k then (k, f p.2) :: rest else p :: updateKey rest k f

/-- Remove a binding (used by the rename file-system operation). -/
def removeKey {α : Type} : List (String × α) → String → List (String × α)
  | [], _ => []
  | p :: rest, k => if p.1 = k then rest else p :: removeKey rest k

/-- The `current_character` sub-dict of a player record (main.py lines
65-71). `spawn_time` is an ISO timestamp string or None. -/
structure CurrentCharacter where
  alive : Bool
  spawn_time : Option String
  hours_survived : ℚ
  last_location : Int × Int × Int
  skills : List (String × Int)
deriving DecidableEq

/-- The `lifetime_stats` sub-dict of a player record (main.py lines 72-76). -/
structure LifetimeStats where
  total_hours_survived : ℚ
  longest_survival : ℚ
  skill_milestones : List (String × Int)
deriving DecidableEq

/-- One entry of `player_stats` (main.py lines 61-77). -/
structure PlayerRecord where
  steam_id : String
  total_deaths : Nat
  total_respawns : Nat
  current_character : CurrentCharacter
  lifetime_stats : LifetimeStats
deriving DecidableEq

/-- The mutable module-level state of main.py: `file_positions` (line 21),
`last_events` (line 22, a dedup set), `player_stats` (line 23) and
`unsaved_changes` (line 24).  `notifications` counts calls of
`send_discord_notification`, modelling the outbound webhook as a counter. -/
structure AppState where
  file_positions : List (String × Nat)
  last_events : List String
  player_stats : List (String × PlayerRecord)
  unsaved_changes : Bool
  notifications : Nat
deriving DecidableEq

/-- Process configuration relevant to the handlers: the SKILL_NOTIFICATIONS
env value (main.py line 17). -/
structure Config where
  skill_notifications : String
deriving DecidableEq

/-- Skill milestone levels for notifications (main.py line 27). -/
def SKILL_MILESTONES : List Int := [5, 10]

/-- One survivor entry of a `daily_survivors` payload. -/
structure Survivor where
  username : String := ""
  hours : ℚ := 0
  x : Int := 0
  y : Int := 0
  z : Int := 0
deriving DecidableEq

/-- The `data` dict of a decoded event, with the fields the handlers read
via `data.get(key, default)`; defaults mirror the Python defaults.
`board_type` models `data.get('type', 'death')` of a leaderboard request. -/
structure EventData where
  username : String := ""
  steam_id : String := ""
  hours_survived : ℚ := 0
  x : Int := 0
  y : Int := 0
  z : Int := 0
  skills : String := ""
  skill : String := ""
  level : Int := 0
  board_type : String := "death"
  survivors : List Survivor := []
  game_day : Int := 0
deriving DecidableEq

/-- A decoded log line: `etype` models `event.get('type')`, `timestamp`
models `event.get('timestamp', '')`. -/
structure Event where
  etype : String := ""
  timestamp : String := ""
  data : EventData := {}
deriving DecidableEq

/-- The fresh record created by `init_player` (main.py lines 61-77). -/
def new_player_record (steam_id : String) : PlayerRecord :=
  { steam_id := steam_id
    total_deaths := 0
    total_respawns := 0
    current_character :=
      { alive := false
        spawn_time := none
        hours_survived := 0
        last_location := (0, 0, 0)
        skills := [] }
    lifetime_stats :=
      { total_hours_survived := 0
        longest_survival := 0
        skill_milestones := [] } }

/-- init_player (main.py lines 58-77): create a record only when the
username is not yet present. -/
def init_player (stats : List (String × PlayerRecord)) (username steam_id : String) :
    List (String × PlayerRecord) :=
  if (lookup? stats username).isSome then stats
  else setKey stats username (new_player_record steam_id)

/-- parse_skills_string (main.py lines 128-139).  Splits on commas; a pair
containing an equals sign is split again and its level parsed with `int`,
which raises ValueError on garbage (modelled as the error case).  A pair
with no equals sign is skipped. -/
def parse_skills_string (skills_str : String) : Except String (List (String × Int)) :=
  if skills_str = "" then .ok []
  else
    (skills_str.splitOn ",").foldlM
      (fun skills pair =>
        if (pair.splitOn "=").length ≥ 2 then
          match pair.splitOn "=" with
          | [skill, level] =>
            match level.trim.toInt? with
            | some n => .ok (setKey skills skill.trim n)
            | none => .error "ValueError"
          | _ => .error "ValueError"
        else .ok skills)
      []

/-- handle_death_event (main.py lines 426-455): create the player if
needed, bump total_deaths, mark the character dead, snapshot hours,
location and skills, accumulate lifetime hours, raise longest_survival if
beaten, then send a death notification. -/
def handle_death_event (data : EventData) (st : AppState) : Except String AppState := do
  let skills ← parse_skills_string data.skills
  let stats := init_player st.player_stats data.username data.steam_id
  let stats := updateKey stats data.username (fun player =>
    { player with
      total_deaths := player.total_deaths + 1
      current_character :=
        { player.current_character with
          alive := false
          hours_survived := data.hours_survived
          last_location := (data.x, data.y, data.z)
          skills := skills }
      lifetime_stats :=
        { player.lifetime_stats with
          total_hours_survived :=
            player.lifetime_stats.total_hours_survived + data.hours_survived
          longest_survival :=
            if data.hours_survived > player.lifetime_stats.longest_survival then
              data.hours_survived
            else player.lifetime_stats.longest_survival } })
  pure { st with
         player_stats := stats
         unsaved_changes := true
         notifications := st.notifications + 1 }

/-- handle_spawn_event (main.py lines 457-480): bump total_respawns and
replace current_character wholesale with a fresh alive snapshot, then send
a respawn notification.  `now` models `datetime.now().isoformat()`. -/
def handle_spawn_event (now : String) (data : EventData) (st : AppState) : AppState :=
  let stats := init_player st.player_stats data.username data.steam_id
  let stats := updateKey stats data.username (fun player =>
    { player with
      total_respawns := player.total_respawns + 1
      current_character :=
        { alive := true
          spawn_time := some now
          hours_survived := 0
          last_location := (data.x, data.y, data.z)
          skills := [] } })
  { st with
    player_stats := stats
    unsaved_changes := true
    notifications := st.notifications + 1 }

/-- handle_level_up_event (main.py lines 482-514): record the new level in
the live skill map, refresh hours, raise the lifetime milestone when the
new level is strictly higher, and notify per SKILL_NOTIFICATIONS policy. -/
def handle_level_up_event (cfg : Config) (data : EventData) (st : AppState) : AppState :=
  let stats := init_player st.player_stats data.username data.steam_id
  let stats := updateKey stats data.username (fun player =>
    let current_milestone := lookup0 player.lifetime_stats.skill_milestones data.skill
    { player with
      current_character :=
        { player.current_character with
          skills := setKey player.current_character.skills data.skill data.level
          hours_survived := data.hours_survived }
      lifetime_stats :=
        if current_milestone < data.level then
          { player.lifetime_stats with
            skill_milestones :=
              setKey player.lifetime_stats.skill_milestones data.skill data.level }
        else player.lifetime_stats })
  let st := { st with player_stats := stats, unsaved_changes := true }
  if cfg.skill_notifications = "all" ∨
      (cfg.skill_notifications = "milestones" ∧ data.level ∈ SKILL_MILESTONES) then
    { st with notifications := st.notifications + 1 }
  else st

/-- handle_login_event (main.py lines 516-533): refresh the live skill map
and hours and mark the character alive; no notification. -/
def handle_login_event (data : EventData) (st : AppState) : Except String AppState := do
  let skills ← parse_skills_string data.skills
  let stats := init_player st.player_stats data.username data.steam_id
  let stats := updateKey stats data.username (fun player =>
    { player with
      current_character :=
        { player.current_character with
          skills := skills
          alive := true
          hours_survived := data.hours_survived } })
  pure { st with player_stats := stats, unsaved_changes := true }

/-- send_daily_survivor_report (main.py lines 249-286): nothing is sent for
an empty survivor list; otherwise one notification goes out (the rendered
ranking text is outside the model). -/
def send_daily_survivor_report (data : EventData) (st : AppState) : AppState :=
  if data.survivors = [] then st
  else { st with notifications := st.notifications + 1 }

/-- Python `sorted(l, key=key, reverse=True)`: a stable descending sort by
the given key (main.py lines 294-298, 321-325, 353-357, 395). -/
def py_sorted_desc {α β : Type} [LinearOrder β] (key : α → β) (l : List α) : List α :=
  l.mergeSort (fun a b => decide (key b ≤ key a))

/-- Death leaderboard entries (main.py lines 293-298): players with at
least one death, sorted by deaths descending, top 10. -/
def death_board (stats : List (String × PlayerRecord)) : List (String × PlayerRecord) :=
  (py_sorted_desc (fun p => p.2.total_deaths)
    (stats.filter (fun p => decide (0 < p.2.total_deaths)))).take 10

/-- Survival leaderboard candidates (main.py lines 320-325): all players
sorted by longest_survival descending, top 10 (no positivity filter before
the cut). -/
def survival_top (stats : List (String × PlayerRecord)) : List (String × PlayerRecord) :=
  (py_sorted_desc (fun p => p.2.lifetime_stats.longest_survival) stats).take 10

/-- Rendered survival lines (main.py lines 333-339): candidates whose
longest_survival is zero are skipped with `continue`. -/
def survival_lines (stats : List (String × PlayerRecord)) : List (String × PlayerRecord) :=
  (survival_top stats).filter (fun p => !decide (p.2.lifetime_stats.longest_survival = 0))

/-- Hours leaderboard entries (main.py lines 352-357): players with
strictly positive lifetime hours, sorted descending, top 10. -/
def hours_board (stats : List (String × PlayerRecord)) : List (String × PlayerRecord) :=
  (py_sorted_desc (fun p => p.2.lifetime_stats.total_hours_survived)
    (stats.filter (fun p => decide (0 < p.2.lifetime_stats.total_hours_survived)))).take 10

/-- Loop body of the players_with_skill accumulation (main.py lines
382-390): an alive player appends their live skill level when positive; a
dead player appends their lifetime milestone when positive. -/
def pws_step (skill_name : String) (acc : List (String × Int))
    (nd : String × PlayerRecord) : List (String × Int) :=
  let acc :=
    if nd.2.current_character.alive then
      let skill_level := lookup0 nd.2.current_character.skills skill_name
      if 0 < skill_level then acc ++ [(nd.1, skill_level)] else acc
    else acc
  let milestone := lookup0 nd.2.lifetime_stats.skill_milestones skill_name
  if 0 < milestone ∧ nd.2.current_character.alive = false then
    acc ++ [(nd.1, milestone)]
  else acc

/-- players_with_skill accumulation (main.py lines 381-390). -/
def players_with_skill (stats : List (String × PlayerRecord)) (skill_name : String) :
    List (String × Int) :=
  stats.foldl (pws_step skill_name) []

/-- Contribution of one player to players_with_skill: values an alive
player or a dead player can put on the board. -/
def pws_contrib (skill_name : String) (nd : String × PlayerRecord) :
    List (String × Int) :=
  (if nd.2.current_character.alive then
    (if 0 < lookup0 nd.2.current_character.skills skill_name then
      [(nd.1, lookup0 nd.2.current_character.skills skill_name)]
    else [])
  else []) ++
  (if 0 < lookup0 nd.2.lifetime_stats.skill_milestones skill_name ∧
      nd.2.current_character.alive = false then
    [(nd.1, lookup0 nd.2.lifetime_stats.skill_milestones skill_name)]
  else [])

/-- Displayed skill leaderboard (main.py line 395): top 10 by level
descending. -/
def skill_board (stats : List (String × PlayerRecord)) (skill_name : String) :
    List (String × Int) :=
  (py_sorted_desc (fun nv => nv.2) (players_with_skill stats skill_name)).take 10

/-- The structured content of a leaderboard notification. -/
inductive BoardMsg where
  | deaths (entries : List (String × PlayerRecord))
  | survival (entries : List (String × PlayerRecord))
  | hours (entries : List (String × PlayerRecord))
  | skill (skill_name : String) (entries : List (String × Int))
deriving DecidableEq

/-- send_leaderboard (main.py lines 288-424).  Returns `none` when nothing
is sent (empty stats, or an empty board).  A type matching none of the
branches leaves the local `embed` unbound and line 424 raises NameError,
modelled as the error case. -/
def send_leaderboard (stats : List (String × PlayerRecord)) (leaderboard_type : String) :
    Except String (Option BoardMsg) :=
  if stats = [] then .ok none
  else if leaderboard_type = "death" then
    let sorted_players := death_board stats
    if sorted_players = [] then .ok none else .ok (some (.deaths sorted_players))
  else if leaderboard_type = "survival" then
    let sorted_players := survival_top stats
    if sorted_players = [] then .ok none
    else if survival_lines stats = [] then .ok none
    else .ok (some (.survival (survival_lines stats)))
  else if leaderboard_type = "hours" then
    let sorted_players := hours_board stats
    if sorted_players = [] then .ok none else .ok (some (.hours sorted_players))
  else if leaderboard_type.startsWith "skill_" then
    let skill_name := leaderboard_type.replace "skill_" ""
    if players_with_skill stats skill_name = [] then .ok none
    else .ok (some (.skill skill_name (skill_board stats skill_name)))
  else .error "NameError"

/-- handle_discord_event (main.py lines 535-568): dispatch on the event
type string; unknown types fall through without effect. -/
def handle_discord_event (cfg : Config) (now : String) (event : Event) (st : AppState) :
    Except String AppState :=
  let data := event.data
  if event.etype = "death" then handle_death_event data st
  else if event.etype = "level_up" then .ok (handle_level_up_event cfg data st)
  else if event.etype = "character_created" then .ok (handle_spawn_event now data st)
  else if event.etype = "login" then handle_login_event data st
  else if event.etype = "sunrise" then .ok { st with notifications := st.notifications + 1 }
  else if event.etype = "sunset" then .ok { st with notifications := st.notifications + 1 }
  else if event.etype = "daily_survivors" then .ok (send_daily_survivor_report data st)
  else if event.etype = "leaderboard_request" then
    match send_leaderboard st.player_stats data.board_type with
    | .error e => .error e
    | .ok none => .ok st
    | .ok (some _) => .ok { st with notifications := st.notifications + 1 }
  else .ok st

/-- Remote log file as seen through the FTP transport: `size?` is the
result of `ftp.size` (None when unavailable), `content` the current decoded
byte content, and the two flags make the corresponding transport call raise
(network failure or timeout). -/
structure RemoteLog where
  size? : Option Nat
  content : List Char
  failSize : Bool
  failRetr : Bool
deriving DecidableEq

/-- download_log_tail (main.py lines 570-595): query the size; on rotation
(size strictly below the stored position) rebind the position to 0; equal
size means no new data; otherwise read from the position to the end and
return the size as the new position.  Any transport exception returns
`(None, from_position)` with the possibly rebound position (lines
593-595). -/
def download_log_tail (remote : RemoteLog) (from_position : Nat) :
    Option (List Char) × Nat :=
  if remote.failSize then (none, from_position)
  else
    match remote.size? with
    | none => (none, from_position)
    | some file_size =>
      let from_position := if file_size < from_position then 0 else from_position
      if file_size = from_position then (some [], from_position)
      else if remote.failRetr then (none, from_position)
      else (some (remote.content.drop from_position), file_size)

/-- Python `file_positions.get(log_path, 0)` (main.py line 602). -/
def get_position (st : AppState) (log_path : String) : Nat :=
  (lookup? st.file_positions log_path).getD 0

/-- Python `str.strip()` whitespace test. -/
def py_is_space (c : Char) : Bool :=
  c == ' ' || c == '\t' || c == '\n' || c == '\r' || c == '\x0b' || c == '\x0c'

/-- Python `line.strip()`: drop leading and trailing whitespace. -/
def py_strip (l : List Char) : List Char :=
  ((l.dropWhile py_is_space).reverse.dropWhile py_is_space).reverse

/-- Python `text.split('\n')`: split on newlines, keeping empty pieces
(a trailing newline yields a final empty piece). -/
def py_lines : List Char → List (List Char)
  | [] => [[]]
  | c :: rest =>
    if c = '\n' then [] :: py_lines rest
    else
      match py_lines rest with
      | [] => [[c]]
      | l :: ls => (c :: l) :: ls

/-- Python runtime errors surfaced by the monitor loop. -/
inductive PyError where
  | unboundLocal
  | other (msg : String)
deriving DecidableEq

/-- The dedup identity of an event (main.py lines 616-627): level_up events
key on user, skill, level and timestamp; every other type keys on type and
timestamp only. -/
def event_identity (event : Event) : String :=
  if event.etype = "level_up" then
    event.etype ++ "_" ++ event.data.username ++ "_" ++ event.data.skill ++ "_" ++
      toString event.data.level ++ "_" ++ event.timestamp
  else event.etype ++ "_" ++ event.timestamp

/-- The line loop of monitor_discord_events_log (main.py lines 608-639).
Blank lines are skipped; a line that fails to decode is skipped via the
JSONDecodeError handler (lines 637-639).  A line that decodes successfully
reaches `if event_id not in last_events` (line 629) — but `last_events` is
assigned at line 635 without a `global` declaration, so Python treats it as
a local variable of the whole function and the read at line 629 raises
UnboundLocalError before any insertion or handling happens.  The error
propagates out of the loop (the inner handler only catches
JSONDecodeError), so the first decodable line aborts the whole batch with
the state exactly as it was.  `loads` models `json.loads` on a stripped
line. -/
def process_event_lines (loads : List Char → Except String Event)
    (lines : List (List Char)) (st : AppState) : AppState × Option PyError :=
  match lines with
  | [] => (st, none)
  | line :: rest =>
    if py_strip line = [] then process_event_lines loads rest st
    else
      match loads (py_strip line) with
      | .error _ => process_event_lines loads rest st
      | .ok _ => (st, some PyError.unboundLocal)

/-- monitor_discord_events_log (main.py lines 597-648): read the tail from
the stored position; when non-empty content arrives, first store the new
position, then split into lines and run the line loop.  The outer handler
(lines 641-648) swallows the propagated error, so the function returns the
state mutated so far together with the swallowed error, if any. -/
def monitor_discord_events_log (loads : List Char → Except String Event)
    (remote : RemoteLog) (log_path : String) (st : AppState) :
    AppState × Option PyError :=
  let last_pos := get_position st log_path
  match download_log_tail remote last_pos with
  | (some new_content, new_pos) =>
    if new_content ≠ [] then
      let st1 := { st with file_positions := setKey st.file_positions log_path new_pos }
      process_event_lines loads (py_lines new_content) st1
    else (st, none)
  | (none, _) => (st, none)

/-- File-system operations relevant to the snapshot write. -/
inductive FsOp where
  | truncate (path : String)
  | write (path : String) (data : String)
  | rename (src : String) (dst : String)
deriving DecidableEq

/-- Effect of one file-system operation on a mapping from paths to
contents.  `truncate` is `open(path, 'w')`, `write` appends to the open
file, `rename` moves a file over the destination. -/
def applyFsOp (fs : List (String × String)) : FsOp → List (String × String)
  | .truncate p => setKey fs p ""
  | .write p d => setKey fs p ((lookup? fs p).getD "" ++ d)
  | .rename src dst =>
    match lookup? fs src with
    | none => fs
    | some c => setKey (removeKey fs src) dst c

/-- Run a trace of file-system operations. -/
def runFs (fs : List (String × String)) (ops : List FsOp) : List (String × String) :=
  ops.foldl applyFsOp fs

/-- Content of a path (empty when absent). -/
def fileContent (fs : List (String × String)) (path : String) : String :=
  (lookup? fs path).getD ""

/-- save_player_stats (main.py lines 44-56): `open(PLAYER_STATS_FILE, 'w')`
truncates the stats file in place, then `json.dump` writes the serialized
snapshot into it.  There is no temporary file and no rename step. -/
def save_player_stats_ops (path serialized : String) : List FsOp :=
  [FsOp.truncate path, FsOp.write path serialized]

/-- A write trace is crash safe for a path when interrupting it after any
prefix leaves the path holding either its old content or the final new
content, never a partial state. -/
def crash_safe (ops : List FsOp) (path : String) : Prop :=
  ∀ fs k,
    fileContent (runFs fs (ops.take k)) path = fileContent fs path ∨
    fileContent (runFs fs (ops.take k)) path = fileContent (runFs fs ops) path

/-- Whether a trace contains a rename step (the write-then-rename
mechanism). -/
def uses_rename (ops : List FsOp) : Bool :=
  ops.any (fun op => match op with | .rename _ _ => true | _ => false)

/-- Death event payload used when folding a list of death durations. -/
def mkDeathData (username steam_id : String) (hours : ℚ) : EventData :=
  { username := username, steam_id := steam_id, hours_survived := hours }

/-- Fold a sequence of death events for one player through
handle_death_event. -/
def run_death_events (username steam_id : String) (ds : List ℚ) (st : AppState) :
    Except String AppState :=
  ds.foldlM (fun st d => handle_death_event (mkDeathData username steam_id d) st) st

/-- Fold a sequence of decoded events through handle_discord_event. -/
def run_events (cfg : Config) (now : String) (es : List Event) (st : AppState) :
    Except String AppState :=
  es.foldlM (fun st e => handle_discord_event cfg now e st) st

/-- Lifetime milestone of skill `s` for subject `u` as stored in the stats
mapping (0 when the subject or the skill is unknown). -/
def milestoneOfStats (stats : List (String × PlayerRecord)) (u s : String) : Int :=
  match lookup? stats u with
  | none => 0
  | some rec => lookup0 rec.lifetime_stats.skill_milestones s

/-- Levels of the level_up events of subject `u` for skill `s`, in order. -/
def levelsFor (es : List Event) (u s : String) : List Int :=
  es.filterMap (fun e =>
    if e.etype = "level_up" ∧ e.data.username = u ∧ e.data.skill = s then
      some e.data.level
    else none)

/-- Success test for an Except value. -/
def exceptOk {ε α : Type} : Except ε α → Bool
  | .ok _ => true
  | .error _ => false

/-- The module state right after startup with no saved snapshot. -/
def emptyState : AppState :=
  { file_positions := []
    last_events := []
    player_stats := []
    unsaved_changes := false
    notifications := 0 }

/-- Default configuration: milestone notifications only. -/
def cfg0 : Config := { skill_notifications := "milestones" }

/-- Sample decode function standing in for `json.loads`: the two-character
line `D1` decodes to a fixed death event with timestamp `T1`; everything
else raises JSONDecodeError. -/
def demoLoads (l : List Char) : Except String Event :=
  if l = ['D', '1'] then
    .ok { etype := "death", timestamp := "T1",
          data := { username := "Alice", steam_id := "7", hours_survived := 10 } }
  else .error "JSONDecodeError"

/-- Sample decode function for bulk inputs: any line starting with `D`
decodes to a death event whose timestamp is the remaining characters, so
distinct lines yield distinct dedup identities. -/
def demoLoadsN (l : List Char) : Except String Event :=
  match l with
  | 'D' :: rest => .ok { etype := "death", timestamp := String.mk rest, data := {} }
  | _ => .error "JSONDecodeError"

/-- A batch of 1500 lines decoding to 1500 events with distinct dedup
identities. -/
def lines1500 : List (List Char) :=
  (List.range 1500).map (fun i => 'D' :: (toString i).data)

/-- The monitored log path. -/
def logPathD : String := "/Lua/discord_events.log"

/-- First poll cycle input: the log holds one death event line. -/
def remoteC2a : RemoteLog :=
  { size? := some 3, content := ['D', '1', '\n'], failSize := false, failRetr := false }

/-- Second poll cycle input: the log grew by a byte-identical copy of the
same line (an overlapping read of the same event). -/
def remoteC2b : RemoteLog :=
  { size? := some 6, content := ['D', '1', '\n', 'D', '1', '\n'],
    failSize := false, failRetr := false }

/-- Result of the first poll cycle on a fresh state. -/
def c2_run1 : AppState × Option PyError :=
  monitor_discord_events_log demoLoads remoteC2a logPathD emptyState

/-- Result of the second poll cycle, continuing from the first. -/
def c2_run2 : AppState × Option PyError :=
  monitor_discord_events_log demoLoads remoteC2b logPathD c2_run1.1

/-- Rotation example: the remote file now holds 2 bytes. -/
def remoteRot : RemoteLog :=
  { size? := some 2, content := ['a', 'b'], failSize := false, failRetr := false }

/-- Transport failure example: the size query raises. -/
def remoteFail : RemoteLog :=
  { size? := some 9, content := ['a', 'b', 'c'], failSize := true, failRetr := false }

/-- A state with a stored offset for the monitored log. -/
def stPos3 : AppState := { emptyState with file_positions := [(logPathD, 3)] }

/-- A level_up event payload. -/
def mkLevelUp (u s : String) (lvl : Int) : Event :=
  { etype := "level_up", data := { username := u, steam_id := "0", skill := s, level := lvl } }

/-- Two level_up events for the same subject and skill: to level 8, then to
level 3. -/
def esW7 : List Event := [mkLevelUp "Ann" "Aiming" 8, mkLevelUp "Ann" "Aiming" 3]

/-- A player record for leaderboard examples: dead, with a stale live skill
map claiming Aiming 7 but a lifetime milestone of 5. -/
def bobRecord : PlayerRecord :=
  { steam_id := "2"
    total_deaths := 3
    total_respawns := 3
    current_character :=
      { alive := false
        spawn_time := none
        hours_survived := 4
        last_location := (0, 0, 0)
        skills := [("Aiming", 7)] }
    lifetime_stats :=
      { total_hours_survived := 12
        longest_survival := 6
        skill_milestones := [("Aiming", 5)] } }

/-- Stats mapping with the single dead player Bob. -/
def statsW8 : List (String × PlayerRecord) := [("Bob", bobRecord)]

/-- Stats mapping where every player has longest_survival 0. -/
def statsW10 : List (String × PlayerRecord) :=
  [("P1", new_player_record "1"), ("P2", new_player_record "2")]

/-- Effect of one death of duration `d` on a player record, as performed by
handle_death_event for a payload built with mkDeathData (empty skill
string, origin location). -/
def death_apply (d : ℚ) (player : PlayerRecord) : PlayerRecord :=
  { player with
    total_deaths := player.total_deaths + 1
    current_character :=
      { player.current_character with
        alive := false
        hours_survived := d
        last_location := (0, 0, 0)
        skills := [] }
    lifetime_stats :=
      { player.lifetime_stats with
        total_hours_survived := player.lifetime_stats.total_hours_survived + d
        longest_survival :=
          if d > player.lifetime_stats.longest_survival then d
          else player.lifetime_stats.longest_survival } }

/-- Effect of one level_up event payload on a player record, as performed
by handle_level_up_event: record the live level and hours, and raise the
lifetime milestone when strictly beaten. -/
def level_apply (data : EventData) (player : PlayerRecord) : PlayerRecord :=
  let current_milestone := lookup0 player.lifetime_stats.skill_milestones data.skill
  { player with
    current_character :=
      { player.current_character with
        skills := setKey player.current_character.skills data.skill data.level
        hours_survived := data.hours_survived }
    lifetime_stats :=
      if current_milestone < data.level then
        { player.lifetime_stats with
          skill_milestones :=
            setKey player.lifetime_stats.skill_milestones data.skill data.level }
      else player.lifetime_stats }

theorem lookup?_setKey_self {α : Type} (l : List (String × α)) (k : String) (v : α) :
    lookup? (setKey l k v) k = some v := by
  induction l with
  | nil => simp [setKey, lookup?]
  | cons p rest ih =>
    by_cases h : p.1 = k
    · simp [setKey, h, lookup?]
    · simp [setKey, h, lookup?, ih]

theorem lookup?_setKey_ne {α : Type} (l : List (String × α)) (k k' : String) (v : α)
    (h : k' ≠ k) : lookup? (setKey l k v) k' = lookup? l k' := by
  induction l with
  | nil => simp [setKey, lookup?, Ne.symm h]
  | cons p rest ih =>
    by_cases hp : p.1 = k
    · simp [setKey, hp, lookup?, Ne.symm h]
    · simp only [setKey, hp, if_false, lookup?]
      by_cases hp' : p.1 = k'
      · simp [hp']
      · simp [hp', ih]

theorem lookup?_updateKey_self {α : Type} (l : List (String × α)) (k : String)
    (f : α → α) : lookup? (updateKey l k f) k = (lookup? l k).map f := by
  induction l with
  | nil => simp [updateKey, lookup?]
  | cons p rest ih =>
    by_cases h : p.1 = k
    · simp [updateKey, h, lookup?]
    · simp [updateKey, h, lookup?, ih]

theorem lookup?_updateKey_ne {α : Type} (l : List (String × α)) (k k' : String)
    (f : α → α) (h : k' ≠ k) : lookup? (updateKey l k f) k' = lookup? l k' := by
  induction l with
  | nil => simp [updateKey, lookup?]
  | cons p rest ih =>
    by_cases hp : p.1 = k
    · simp [updateKey, hp, lookup?, Ne.symm h]
    · simp only [updateKey, hp, if_false, lookup?]
      by_cases hp' : p.1 = k'
      · simp [hp']
      · simp [hp', ih]

theorem lookup?_init_self (stats : List (String × PlayerRecord)) (u sid : String) :
    lookup? (init_player stats u sid) u =
      some ((lookup? stats u).getD (new_player_record sid)) := by
  unfold init_player
  cases h : lookup? stats u with
  | none => simp [h, lookup?_setKey_self]
  | some rec => simp [h]

theorem lookup?_init_ne (stats : List (String × PlayerRecord)) (u sid v : String)
    (h : v ≠ u) : lookup? (init_player stats u sid) v = lookup? stats v := by
  unfold init_player
  cases hx : lookup? stats u with
  | none => simp [hx, lookup?_setKey_ne _ _ _ _ h]
  | some rec => simp [hx]

theorem le_foldl_max {α : Type} [LinearOrder α] (l : List α) (a : α) :
    a ≤ l.foldl max a := by
  induction l generalizing a with
  | nil => simp
  | cons d rest ih => exact le_trans (le_max_left a d) (ih (max a d))

theorem mem_le_foldl_max {α : Type} [LinearOrder α] (l : List α) (a b : α)
    (hb : b ∈ l) : b ≤ l.foldl max a := by
  induction l generalizing a with
  | nil => cases hb
  | cons d rest ih =>
    rcases List.mem_cons.mp hb with h | h
    · subst h
      exact le_trans (le_max_right a b) (le_foldl_max rest (max a b))
    · exact ih (max a d) h

theorem foldl_max_choice {α : Type} [LinearOrder α] (l : List α) (a : α) :
    l.foldl max a = a ∨ l.foldl max a ∈ l := by
  induction l generalizing a with
  | nil => left; rfl
  | cons d rest ih =>
    rcases ih (max a d) with h | h
    · rcases max_choice a d with hm | hm
      · left
        simp only [List.foldl_cons]
        rw [h, hm]
      · right
        have hd : List.foldl max a (d :: rest) = d := by
          simp only [List.foldl_cons]
          rw [h, hm]
        rw [hd]
        exact List.mem_cons_self d rest
    · right
      exact List.mem_cons_of_mem d h

theorem parse_skills_string_empty : parse_skills_string "" = .ok [] := by
  simp [parse_skills_string]

theorem handle_death_mkDeath (u sid : String) (d : ℚ) (st : AppState) :
    handle_death_event (mkDeathData u sid d) st =
      .ok { st with
            player_stats :=
              updateKey (init_player st.player_stats u sid) u (death_apply d)
            unsaved_changes := true
            notifications := st.notifications + 1 } := by
  rfl

theorem death_apply_deaths (d : ℚ) (r : PlayerRecord) :
    (death_apply d r).total_deaths = r.total_deaths + 1 := rfl

theorem death_apply_hours (d : ℚ) (r : PlayerRecord) :
    (death_apply d r).lifetime_stats.total_hours_survived =
      r.lifetime_stats.total_hours_survived + d := rfl

theorem death_apply_longest (d : ℚ) (r : PlayerRecord) :
    (death_apply d r).lifetime_stats.longest_survival =
      max r.lifetime_stats.longest_survival d := by
  show (if d > r.lifetime_stats.longest_survival then d
        else r.lifetime_stats.longest_survival) = _
  rcases le_or_lt d r.lifetime_stats.longest_survival with h | h
  · rw [if_neg (not_lt.mpr h), max_eq_left h]
  · rw [if_pos h, max_eq_right h.le]

theorem run_death_invariant (u sid : String) (ds : List ℚ) :
    ∀ (st : AppState) (rec0 : PlayerRecord), lookup? st.player_stats u = some rec0 →
    ∃ st' rec', run_death_events u sid ds st = .ok st' ∧
      lookup? st'.player_stats u = some rec' ∧
      rec'.total_deaths = rec0.total_deaths + ds.length ∧
      rec'.lifetime_stats.total_hours_survived =
        rec0.lifetime_stats.total_hours_survived + ds.sum ∧
      rec'.lifetime_stats.longest_survival =
        ds.foldl max rec0.lifetime_stats.longest_survival := by
  induction ds with
  | nil =>
    intro st rec0 h
    exact ⟨st, rec0, rfl, h, by simp, by simp, rfl⟩
  | cons d rest ih =>
    intro st rec0 h
    have h1 : lookup? (updateKey (init_player st.player_stats u sid) u
        (death_apply d)) u = some (death_apply d rec0) := by
      rw [lookup?_updateKey_self, lookup?_init_self, h]
      rfl
    obtain ⟨st', rec', hrun, hl, hdc, hth, hlg⟩ :=
      ih { st with
           player_stats :=
             updateKey (init_player st.player_stats u sid) u (death_apply d)
           unsaved_changes := true
           notifications := st.notifications + 1 }
        (death_apply d rec0) h1
    refine ⟨st', rec', ?_, hl, ?_, ?_, ?_⟩
    · show (run_death_events u sid (d :: rest) st) = _
      unfold run_death_events at hrun ⊢
      rw [List.foldlM_cons, handle_death_mkDeath]
      exact hrun
    · rw [hdc, death_apply_deaths, List.length_cons]
      omega
    · rw [hth, death_apply_hours, List.sum_cons]
      ring
    · rw [hlg, death_apply_longest, List.foldl_cons]

theorem run_death_from_empty (u sid : String) (d : ℚ) (ds : List ℚ) :
    ∃ st' rec', run_death_events u sid (d :: ds) emptyState = .ok st' ∧
      lookup? st'.player_stats u = some rec' ∧
      rec'.total_deaths = (d :: ds).length ∧
      rec'.lifetime_stats.total_hours_survived = (d :: ds).sum ∧
      rec'.lifetime_stats.longest_survival = (d :: ds).foldl max 0 := by
  have h1 : lookup? (updateKey (init_player emptyState.player_stats u sid) u
      (death_apply d)) u = some (death_apply d (new_player_record sid)) := by
    rw [lookup?_updateKey_self, lookup?_init_self]
    rfl
  obtain ⟨st', rec', hrun, hl, hdc, hth, hlg⟩ :=
    run_death_invariant u sid ds
      { emptyState with
        player_stats :=
          updateKey (init_player emptyState.player_stats u sid) u (death_apply d)
        unsaved_changes := true
        notifications := emptyState.notifications + 1 }
      (death_apply d (new_player_record sid)) h1
  refine ⟨st', rec', ?_, hl, ?_, ?_, ?_⟩
  · unfold run_death_events at hrun ⊢
    rw [List.foldlM_cons, handle_death_mkDeath]
    exact hrun
  · rw [hdc, death_apply_deaths, List.length_cons]
    show 0 + 1 + ds.length = ds.length + 1
    omega
  · rw [hth, death_apply_hours, List.sum_cons]
    show (0 : ℚ) + d + ds.sum = d + ds.sum
    ring
  · rw [hlg, death_apply_longest, List.foldl_cons]
    rfl

theorem lookup0_setKey_self (m : List (String × Int)) (k : String) (v : Int) :
    lookup0 (setKey m k v) k = v := by
  unfold lookup0
  rw [lookup?_setKey_self]
  rfl

theorem lookup0_setKey_ne (m : List (String × Int)) (k k' : String) (v : Int)
    (h : k' ≠ k) : lookup0 (setKey m k v) k' = lookup0 m k' := by
  unfold lookup0
  rw [lookup?_setKey_ne _ _ _ _ h]

theorem milestoneOfStats_update_preserve (stats : List (String × PlayerRecord))
    (u0 sid : String) (f : PlayerRecord → PlayerRecord)
    (hf : ∀ r, (f r).lifetime_stats.skill_milestones = r.lifetime_stats.skill_milestones)
    (u s : String) :
    milestoneOfStats (updateKey (init_player stats u0 sid) u0 f) u s =
      milestoneOfStats stats u s := by
  by_cases hu : u = u0
  · subst hu
    unfold milestoneOfStats
    rw [lookup?_updateKey_self, lookup?_init_self]
    cases hx : lookup? stats u with
    | none =>
      simp only [Option.getD_none, Option.map_some', hf]
      rfl
    | some rec =>
      simp only [Option.getD_some, Option.map_some', hf]
  · unfold milestoneOfStats
    rw [lookup?_updateKey_ne _ _ _ _ hu, lookup?_init_ne _ _ _ _ hu]

theorem level_apply_milestones (data : EventData) (r : PlayerRecord) (s : String) :
    lookup0 (level_apply data r).lifetime_stats.skill_milestones s =
      if data.skill = s then
        max (lookup0 r.lifetime_stats.skill_milestones s) data.level
      else lookup0 r.lifetime_stats.skill_milestones s := by
  unfold level_apply
  by_cases hc : lookup0 r.lifetime_stats.skill_milestones data.skill < data.level
  · simp only [hc, if_true]
    by_cases hs : data.skill = s
    · subst hs
      rw [lookup0_setKey_self, if_pos rfl, max_eq_right hc.le]
    · rw [lookup0_setKey_ne _ _ _ _ (fun hk => hs hk.symm), if_neg hs]
  · simp only [hc, if_false]
    by_cases hs : data.skill = s
    · subst hs
      rw [if_pos rfl, max_eq_left (not_lt.mp hc)]
    · rw [if_neg hs]

theorem handle_level_up_player_stats (cfg : Config) (data : EventData) (st : AppState) :
    (handle_level_up_event cfg data st).player_stats =
      updateKey (init_player st.player_stats data.username data.steam_id)
        data.username (level_apply data) := by
  unfold handle_level_up_event
  split <;> rfl

theorem milestone_handle_level_up (cfg : Config) (data : EventData) (st : AppState)
    (u s : String) :
    milestoneOfStats (handle_level_up_event cfg data st).player_stats u s =
      if data.username = u ∧ data.skill = s then
        max (milestoneOfStats st.player_stats u s) data.level
      else milestoneOfStats st.player_stats u s := by
  rw [handle_level_up_player_stats]
  by_cases hu : data.username = u
  · subst hu
    unfold milestoneOfStats
    rw [lookup?_updateKey_self, lookup?_init_self]
    cases hx : lookup? st.player_stats data.username with
    | none =>
      simp only [Option.getD_none, Option.map_some', level_apply_milestones, true_and]
      rfl
    | some rec =>
      simp only [Option.getD_some, Option.map_some', level_apply_milestones, true_and]
  · have hu' : u ≠ data.username := fun hk => hu hk.symm
    unfold milestoneOfStats
    rw [lookup?_updateKey_ne _ _ _ _ hu', lookup?_init_ne _ _ _ _ hu']
    simp [hu]

theorem milestone_handle_death (data : EventData) (st st' : AppState) (u s : String)
    (h : handle_death_event data st = .ok st') :
    milestoneOfStats st'.player_stats u s = milestoneOfStats st.player_stats u s := by
  unfold handle_death_event at h
  cases hp : parse_skills_string data.skills with
  | error err =>
    rw [hp] at h
    simp only [Bind.bind, Except.bind] at h
    exact Except.noConfusion h
  | ok sk =>
    rw [hp] at h
    simp only [Bind.bind, Except.bind, pure, Except.pure, Except.ok.injEq] at h
    subst h
    apply milestoneOfStats_update_preserve
    intro r
    rfl

theorem milestone_handle_login (data : EventData) (st st' : AppState) (u s : String)
    (h : handle_login_event data st = .ok st') :
    milestoneOfStats st'.player_stats u s = milestoneOfStats st.player_stats u s := by
  unfold handle_login_event at h
  cases hp : parse_skills_string data.skills with
  | error err =>
    rw [hp] at h
    simp only [Bind.bind, Except.bind] at h
    exact Except.noConfusion h
  | ok sk =>
    rw [hp] at h
    simp only [Bind.bind, Except.bind, pure, Except.pure, Except.ok.injEq] at h
    subst h
    apply milestoneOfStats_update_preserve
    intro r
    rfl

theorem milestone_handle_spawn (now : String) (data : EventData) (st : AppState)
    (u s : String) :
    milestoneOfStats (handle_spawn_event now data st).player_stats u s =
      milestoneOfStats st.player_stats u s := by
  apply milestoneOfStats_update_preserve
  intro r
  rfl

theorem milestone_handle_daily (data : EventData) (st : AppState) (u s : String) :
    milestoneOfStats (send_daily_survivor_report data st).player_stats u s =
      milestoneOfStats st.player_stats u s := by
  unfold send_daily_survivor_report
  split <;> rfl

theorem milestone_handle_event (cfg : Config) (now : String) (e : Event)
    (st st' : AppState) (h : handle_discord_event cfg now e st = .ok st') (u s : String) :
    milestoneOfStats st'.player_stats u s =
      if e.etype = "level_up" ∧ e.data.username = u ∧ e.data.skill = s then
        max (milestoneOfStats st.player_stats u s) e.data.level
      else milestoneOfStats st.player_stats u s := by
  unfold handle_discord_event at h
  by_cases h1 : e.etype = "death"
  · rw [if_pos h1] at h
    have hne : ¬(e.etype = "level_up" ∧ e.data.username = u ∧ e.data.skill = s) := by
      intro hx
      rw [h1] at hx
      exact absurd hx.1 (by decide)
    rw [if_neg hne]
    exact milestone_handle_death _ _ _ u s h
  · rw [if_neg h1] at h
    by_cases h2 : e.etype = "level_up"
    · rw [if_pos h2] at h
      simp only [Except.ok.injEq] at h
      subst h
      rw [milestone_handle_level_up]
      simp only [h2, eq_self_iff_true, true_and]
    · rw [if_neg h2] at h
      have hne : ¬(e.etype = "level_up" ∧ e.data.username = u ∧ e.data.skill = s) :=
        fun hx => h2 hx.1
      rw [if_neg hne]
      by_cases h3 : e.etype = "character_created"
      · rw [if_pos h3] at h
        simp only [Except.ok.injEq] at h
        subst h
        exact milestone_handle_spawn now e.data st u s
      · rw [if_neg h3] at h
        by_cases h4 : e.etype = "login"
        · rw [if_pos h4] at h
          exact milestone_handle_login _ _ _ u s h
        · rw [if_neg h4] at h
          by_cases h5 : e.etype = "sunrise"
          · rw [if_pos h5] at h
            simp only [Except.ok.injEq] at h
            subst h
            rfl
          · rw [if_neg h5] at h
            by_cases h6 : e.etype = "sunset"
            · rw [if_pos h6] at h
              simp only [Except.ok.injEq] at h
              subst h
              rfl
            · rw [if_neg h6] at h
              by_cases h7 : e.etype = "daily_survivors"
              · rw [if_pos h7] at h
                simp only [Except.ok.injEq] at h
                subst h
                exact milestone_handle_daily e.data st u s
              · rw [if_neg h7] at h
                by_cases h8 : e.etype = "leaderboard_request"
                · rw [if_pos h8] at h
                  cases hsl : send_leaderboard st.player_stats e.data.board_type with
                  | error err =>
                    rw [hsl] at h
                    exact Except.noConfusion h
                  | ok ob =>
                    rw [hsl] at h
                    cases ob with
                    | none =>
                      simp only [Except.ok.injEq] at h
                      subst h
                      rfl
                    | some b =>
                      simp only [Except.ok.injEq] at h
                      subst h
                      rfl
                · rw [if_neg h8] at h
                  simp only [Except.ok.injEq] at h
                  subst h
                  rfl

theorem levelsFor_cons (e : Event) (es : List Event) (u s : String) :
    levelsFor (e :: es) u s =
      if e.etype = "level_up" ∧ e.data.username = u ∧ e.data.skill = s then
        e.data.level :: levelsFor es u s
      else levelsFor es u s := by
  unfold levelsFor
  by_cases hc : e.etype = "level_up" ∧ e.data.username = u ∧ e.data.skill = s
  · simp only [List.filterMap_cons, if_pos hc]
  · simp only [List.filterMap_cons, if_neg hc]

theorem milestone_run_events (cfg : Config) (now u s : String) (es : List Event) :
    ∀ st st', run_events cfg now es st = .ok st' →
    milestoneOfStats st'.player_stats u s =
      (levelsFor es u s).foldl max (milestoneOfStats st.player_stats u s) := by
  induction es with
  | nil =>
    intro st st' h
    unfold run_events at h
    simp only [List.foldlM_nil, pure, Except.pure, Except.ok.injEq] at h
    subst h
    rfl
  | cons e rest ih =>
    intro st st' h
    unfold run_events at h
    rw [List.foldlM_cons] at h
    cases he : handle_discord_event cfg now e st with
    | error err =>
      rw [he] at h
      simp only [Bind.bind, Except.bind] at h
      exact Except.noConfusion h
    | ok st1 =>
      rw [he] at h
      simp only [Bind.bind, Except.bind] at h
      have hstep := milestone_handle_event cfg now e st st1 he u s
      have hrest := ih st1 st' h
      rw [levelsFor_cons]
      by_cases hc : e.etype = "level_up" ∧ e.data.username = u ∧ e.data.skill = s
      · rw [if_pos hc] at hstep ⊢
        rw [List.foldl_cons, hrest, hstep]
      · rw [if_neg hc] at hstep ⊢
        rw [hrest, hstep]

theorem pws_step_eq (sk : String) (acc : List (String × Int)) (nd : String × PlayerRecord) :
    pws_step sk acc nd = acc ++ pws_contrib sk nd := by
  by_cases ha : nd.2.current_character.alive <;>
    by_cases hl : 0 < lookup0 nd.2.current_character.skills sk <;>
    by_cases hm : 0 < lookup0 nd.2.lifetime_stats.skill_milestones sk <;>
    simp [pws_step, pws_contrib, ha, hl, hm]

theorem mem_foldl_pws (sk : String) (stats : List (String × PlayerRecord)) :
    ∀ (acc : List (String × Int)) (x : String × Int),
      x ∈ stats.foldl (pws_step sk) acc ↔
        x ∈ acc ∨ ∃ nd ∈ stats, x ∈ pws_contrib sk nd := by
  induction stats with
  | nil =>
    intro acc x
    simp
  | cons hd tl ih =>
    intro acc x
    rw [List.foldl_cons, pws_step_eq, ih]
    simp only [List.mem_append, List.exists_mem_cons_iff]
    tauto

theorem mem_players_with_skill (stats : List (String × PlayerRecord)) (sk : String)
    (x : String × Int) :
    x ∈ players_with_skill stats sk ↔ ∃ nd ∈ stats, x ∈ pws_contrib sk nd := by
  unfold players_with_skill
  rw [mem_foldl_pws]
  simp

theorem pws_contrib_spec (sk : String) (nd : String × PlayerRecord) (x : String × Int)
    (hx : x ∈ pws_contrib sk nd) :
    x.1 = nd.1 ∧
      ((nd.2.current_character.alive = true ∧
        x.2 = lookup0 nd.2.current_character.skills sk ∧ 0 < x.2) ∨
       (nd.2.current_character.alive = false ∧
        x.2 = lookup0 nd.2.lifetime_stats.skill_milestones sk ∧ 0 < x.2)) := by
  unfold pws_contrib at hx
  by_cases ha : nd.2.current_character.alive
  · by_cases hl : 0 < lookup0 nd.2.current_character.skills sk
    · simp only [ha, hl, if_true, if_pos, Bool.true_eq_false, and_false, if_false,
        List.append_nil, List.mem_singleton] at hx
      subst hx
      exact ⟨rfl, Or.inl ⟨ha, rfl, hl⟩⟩
    · simp [ha, hl] at hx
  · by_cases hm : 0 < lookup0 nd.2.lifetime_stats.skill_milestones sk
    · have ha' : nd.2.current_character.alive = false := by
        simpa using ha
      simp only [ha', Bool.false_eq_true, if_false, hm, true_and, if_true,
        List.nil_append, List.mem_singleton] at hx
      subst hx
      exact ⟨rfl, Or.inr ⟨ha', rfl, hm⟩⟩
    · simp [ha, hm] at hx

theorem mem_py_sorted_desc {α β : Type} [LinearOrder β] (key : α → β) (l : List α)
    (x : α) : x ∈ py_sorted_desc key l ↔ x ∈ l := by
  unfold py_sorted_desc
  exact List.mem_mergeSort

theorem death_board_pos (stats : List (String × PlayerRecord)) :
    ∀ p ∈ death_board stats, 0 < p.2.total_deaths := by
  intro p hp
  unfold death_board at hp
  have h1 := List.take_subset _ _ hp
  rw [mem_py_sorted_desc] at h1
  have h2 := List.mem_filter.mp h1
  exact of_decide_eq_true h2.2

theorem hours_board_pos (stats : List (String × PlayerRecord)) :
    ∀ p ∈ hours_board stats, 0 < p.2.lifetime_stats.total_hours_survived := by
  intro p hp
  unfold hours_board at hp
  have h1 := List.take_subset _ _ hp
  rw [mem_py_sorted_desc] at h1
  have h2 := List.mem_filter.mp h1
  exact of_decide_eq_true h2.2

theorem survival_top_subset (stats : List (String × PlayerRecord)) :
    ∀ p ∈ survival_top stats, p ∈ stats := by
  intro p hp
  unfold survival_top at hp
  have h1 := List.take_subset _ _ hp
  rw [mem_py_sorted_desc] at h1
  exact h1

theorem survival_lines_ne_zero (stats : List (String × PlayerRecord)) :
    ∀ p ∈ survival_lines stats, p.2.lifetime_stats.longest_survival ≠ 0 := by
  intro p hp
  unfold survival_lines at hp
  have h2 := List.mem_filter.mp hp
  have h3 := h2.2
  rw [Bool.not_eq_true'] at h3
  exact of_decide_eq_false h3

theorem survival_suppressed (stats : List (String × PlayerRecord))
    (hz : ∀ p ∈ stats, p.2.lifetime_stats.longest_survival = 0) :
    send_leaderboard stats "survival" = .ok none := by
  by_cases hst : stats = []
  · unfold send_leaderboard
    rw [if_pos hst]
  · have hlines : survival_lines stats = [] := by
      unfold survival_lines
      rw [List.filter_eq_nil_iff]
      intro p hp
      have hmem := survival_top_subset stats p hp
      have := hz p hmem
      simp [this]
    unfold send_leaderboard
    rw [if_neg hst, if_neg (by decide : ¬("survival" : String) = "death"), if_pos rfl]
    simp only [hlines]
    by_cases htop : survival_top stats = []
    · simp [htop]
    · simp [htop]

/-- C3: when the remote size S is strictly below the stored offset F, the
tail read restarts from offset 0 (the whole current content is returned)
and the returned new offset is S; when F is at most S the read starts at F
(the offset is reset to 0 only in the rotation case) and the returned new
offset is again S. -/
theorem download_log_tail_rotation (remote : RemoteLog) (F S : Nat)
    (hS : remote.size? = some S) (hfs : remote.failSize = false)
    (hfr : remote.failRetr = false) (hlen : remote.content.length = S) :
    (download_log_tail remote F).2 = S ∧
    (S < F → (download_log_tail remote F).1 = some remote.content) ∧
    (F < S → (download_log_tail remote F).1 = some (remote.content.drop F)) ∧
    (S = F → (download_log_tail remote F).1 = some []) := by
  rcases Nat.lt_trichotomy S F with hlt | heq | hgt
  · by_cases hz : S = 0
    · have hcont : remote.content = [] := by
        have : remote.content.length = 0 := by rw [hlen, hz]
        exact List.eq_nil_of_length_eq_zero this
      have hd : download_log_tail remote F = (some [], 0) := by
        unfold download_log_tail
        simp [hfs, hS, hz, show 0 < F by omega]
      refine ⟨?_, ?_, ?_, ?_⟩
      · rw [hd]
        omega
      · intro _
        rw [hd, hcont]
      · intro hFS
        exact absurd hFS (by omega)
      · intro hSF
        exact absurd hSF (by omega)
    · have hd : download_log_tail remote F = (some (remote.content.drop 0), S) := by
        unfold download_log_tail
        simp [hfs, hS, hlt, hz, hfr]
      refine ⟨by rw [hd], ?_, ?_, ?_⟩
      · intro _
        rw [hd, List.drop_zero]
      · intro hFS
        exact absurd hFS (by omega)
      · intro hSF
        exact absurd hSF (by omega)
  · have hd : download_log_tail remote F = (some [], F) := by
      unfold download_log_tail
      simp [hfs, hS, heq]
    refine ⟨?_, ?_, ?_, ?_⟩
    · rw [hd]
      omega
    · intro hFS
      exact absurd hFS (by omega)
    · intro hFS
      exact absurd hFS (by omega)
    · intro _
      rw [hd]
  · have h1 : ¬(S < F) := by omega
    have h2 : ¬(S = F) := by omega
    have hd : download_log_tail remote F = (some (remote.content.drop F), S) := by
      unfold download_log_tail
      simp [hfs, hS, h1, h2, hfr]
    refine ⟨by rw [hd], ?_, ?_, ?_⟩
    · intro hFS
      exact absurd hFS (by omega)
    · intro _
      rw [hd]
    · intro hSF
      exact absurd hSF (by omega)

theorem download_log_tail_rotation_witness :
    (2 : Nat) < 5 ∧ (download_log_tail remoteRot 5).1 = some remoteRot.content ∧
    (download_log_tail remoteRot 5).2 = 2 :=
  ⟨by decide,
   (download_log_tail_rotation remoteRot 5 2 rfl rfl rfl rfl).2.1 (by decide),
   (download_log_tail_rotation remoteRot 5 2 rfl rfl rfl rfl).1⟩

/-- C5: a transport failure during the tail read surfaces as a null
content value with the stored offset returned unchanged; on a null result
the monitor leaves the whole state (in particular the stored offsets)
untouched, so the next cycle retries the same byte range; the stored
offset only moves when non-empty content was actually returned. -/
theorem transport_failure_offset_unchanged (loads : List Char → Except String Event)
    (remote : RemoteLog) (st : AppState) (log_path : String) :
    (remote.failSize = true →
      download_log_tail remote (get_position st log_path) =
        (none, get_position st log_path)) ∧
    (∀ S, remote.size? = some S → remote.failRetr = true →
      (if S < get_position st log_path then 0 else get_position st log_path) ≠ S →
      (download_log_tail remote (get_position st log_path)).1 = none) ∧
    ((download_log_tail remote (get_position st log_path)).1 = none →
      monitor_discord_events_log loads remote log_path st = (st, none)) ∧
    ((monitor_discord_events_log loads remote log_path st).1.file_positions ≠
        st.file_positions →
      ∃ c, (download_log_tail remote (get_position st log_path)).1 = some c ∧ c ≠ []) := by
  refine ⟨?_, ?_, ?_, ?_⟩
  · intro hf
    unfold download_log_tail
    rw [if_pos hf]
  · intro S hS hr hne
    by_cases hf : remote.failSize
    · unfold download_log_tail
      rw [if_pos hf]
    · unfold download_log_tail
      rw [if_neg hf, hS]
      simp only []
      rw [if_neg (fun hx => hne hx.symm), if_pos hr]
  · intro hnone
    rcases hdl : download_log_tail remote (get_position st log_path) with ⟨o, n⟩
    cases o with
    | none =>
      simp only [monitor_discord_events_log]
      rw [hdl]
    | some c =>
      rw [hdl] at hnone
      exact absurd hnone (by simp)
  · intro hchg
    rcases hdl : download_log_tail remote (get_position st log_path) with ⟨o, n⟩
    cases o with
    | none =>
      exfalso
      apply hchg
      simp only [monitor_discord_events_log]
      rw [hdl]
    | some c =>
      by_cases hc : c = []
      · exfalso
        apply hchg
        simp only [monitor_discord_events_log]
        rw [hdl]
        simp [hc]
      · exact ⟨c, by simp [hdl], hc⟩

theorem transport_failure_witness :
    download_log_tail remoteFail (get_position stPos3 logPathD) =
      (none, get_position stPos3 logPathD) ∧
    monitor_discord_events_log demoLoads remoteFail logPathD stPos3 = (stPos3, none) :=
  ⟨(transport_failure_offset_unchanged demoLoads remoteFail stPos3 logPathD).1 rfl,
   (transport_failure_offset_unchanged demoLoads remoteFail stPos3 logPathD).2.2.1
     (by decide)⟩

set_option maxRecDepth 40000 in
/-- C1: the dedup window is never populated at all.  Feeding a batch of
1500 lines that decode to 1500 events with distinct identities through the
line loop of monitor_discord_events_log leaves the `last_events` window
with 0 identities (not 1000) and the state untouched, because the first
decodable line raises UnboundLocalError: `last_events` is assigned at
main.py line 635 without a `global` declaration, so the membership test at
line 629 reads an unassigned local. -/
theorem dedup_window_never_populated :
    (process_event_lines demoLoadsN lines1500 emptyState).1.last_events.length = 0 ∧
    (process_event_lines demoLoadsN lines1500 emptyState).2 =
      some PyError.unboundLocal ∧
    (process_event_lines demoLoadsN lines1500 emptyState).1 = emptyState := by
  decide

/-- C2: feeding the same death event line (identical content and
timestamp) in two consecutive poll cycles applies zero aggregate-state
mutations and sends zero notifications — not exactly one mutation — while
the stored offset still advances past the line in each cycle, because both
cycles abort with UnboundLocalError at the dedup membership test before
any handler runs. -/
theorem duplicate_line_zero_mutations :
    c2_run2.1.player_stats = [] ∧
    c2_run2.1.notifications = 0 ∧
    c2_run1.2 = some PyError.unboundLocal ∧
    c2_run2.2 = some PyError.unboundLocal ∧
    c2_run1.1.file_positions = [(logPathD, 3)] ∧
    c2_run2.1.file_positions = [(logPathD, 6)] := by
  decide

/-- C4 counterexample: the snapshot write of save_player_stats is not
crash safe.  Interrupting the trace right after the truncating open leaves
the stats file empty — neither the old content nor the new snapshot. -/
theorem save_player_stats_not_atomic :
    ¬ crash_safe (save_player_stats_ops "player_stats.json" "NEW") "player_stats.json" := by
  intro h
  have hx := h [("player_stats.json", "OLD")] 1
  revert hx
  decide

/-- C4 amended: save_player_stats writes the snapshot in place — a
truncating open of the stats file followed by the serialized dump, with no
write-then-rename step — so a completed save holds exactly the new
snapshot, but an interruption right after the open leaves the file
empty. -/
theorem save_player_stats_in_place (path serialized : String) :
    save_player_stats_ops path serialized =
      [FsOp.truncate path, FsOp.write path serialized] ∧
    uses_rename (save_player_stats_ops path serialized) = false ∧
    (∀ fs, fileContent (runFs fs ((save_player_stats_ops path serialized).take 1))
      path = "") ∧
    (∀ fs, fileContent (runFs fs (save_player_stats_ops path serialized))
      path = serialized) := by
  refine ⟨rfl, rfl, ?_, ?_⟩
  · intro fs
    show fileContent (setKey fs path "") path = ""
    unfold fileContent
    rw [lookup?_setKey_self]
    rfl
  · intro fs
    have h1 : lookup? (setKey fs path "") path = some "" := lookup?_setKey_self fs path ""
    show fileContent (applyFsOp (applyFsOp fs (FsOp.truncate path))
      (FsOp.write path serialized)) path = serialized
    unfold applyFsOp fileContent
    rw [lookup?_setKey_self, h1]
    rfl

/-- C9: init_player is idempotent — for a subject that already has a
record, calling init_player with any steam id leaves the stats mapping,
and hence the existing record with all its counters, entirely unchanged. -/
theorem init_player_idempotent (stats : List (String × PlayerRecord))
    (username steam_id : String) (h : (lookup? stats username).isSome = true) :
    init_player stats username steam_id = stats := by
  unfold init_player
  rw [if_pos h]

theorem init_player_idempotent_witness :
    init_player statsW8 "Bob" "999" = statsW8 :=
  init_player_idempotent statsW8 "Bob" "999" (by decide)

/-- C6: each accepted death event increments total_deaths by exactly one,
adds the survival duration to the lifetime hours and raises
longest_survival to the maximum of itself and the duration; folding any
non-empty list of non-negative durations from a fresh state therefore
yields total_deaths equal to the count, lifetime hours equal to the sum,
and longest_survival equal to the maximum of the recorded durations; in
particular durations 10 and 25 yield totals 2, 35 and longest 25. -/
theorem death_aggregation (u sid : String) (ds : List ℚ)
    (hne : ds ≠ []) (hnn : ∀ d ∈ ds, 0 ≤ d) :
    (∀ (st : AppState) (rec0 : PlayerRecord) (d : ℚ),
      lookup? st.player_stats u = some rec0 →
      ∃ st' rec', handle_death_event (mkDeathData u sid d) st = .ok st' ∧
        lookup? st'.player_stats u = some rec' ∧
        rec'.total_deaths = rec0.total_deaths + 1 ∧
        rec'.lifetime_stats.total_hours_survived =
          rec0.lifetime_stats.total_hours_survived + d ∧
        rec'.lifetime_stats.longest_survival =
          max rec0.lifetime_stats.longest_survival d) ∧
    (∃ st' rec', run_death_events u sid ds emptyState = .ok st' ∧
      lookup? st'.player_stats u = some rec' ∧
      rec'.total_deaths = ds.length ∧
      rec'.lifetime_stats.total_hours_survived = ds.sum ∧
      rec'.lifetime_stats.longest_survival ∈ ds ∧
      (∀ d ∈ ds, d ≤ rec'.lifetime_stats.longest_survival)) ∧
    (∃ st' rec', run_death_events u sid [10, 25] emptyState = .ok st' ∧
      lookup? st'.player_stats u = some rec' ∧
      rec'.total_deaths = 2 ∧
      rec'.lifetime_stats.total_hours_survived = 35 ∧
      rec'.lifetime_stats.longest_survival = 25) := by
  refine ⟨?_, ?_, ?_⟩
  · intro st rec0 d h
    refine ⟨{ st with
              player_stats :=
                updateKey (init_player st.player_stats u sid) u (death_apply d)
              unsaved_changes := true
              notifications := st.notifications + 1 },
            death_apply d rec0, handle_death_mkDeath u sid d st, ?_,
            death_apply_deaths d rec0, death_apply_hours d rec0,
            death_apply_longest d rec0⟩
    show lookup? (updateKey (init_player st.player_stats u sid) u (death_apply d)) u =
      some (death_apply d rec0)
    rw [lookup?_updateKey_self, lookup?_init_self, h]
    rfl
  · cases ds with
    | nil => exact absurd rfl hne
    | cons d rest =>
      obtain ⟨st', rec', hrun, hl, hdc, hth, hlg⟩ := run_death_from_empty u sid d rest
      refine ⟨st', rec', hrun, hl, hdc, hth, ?_, ?_⟩
      · rcases foldl_max_choice (d :: rest) (0 : ℚ) with hz | hm
        · have hd0 : d ≤ (d :: rest).foldl max 0 :=
            mem_le_foldl_max _ _ _ (List.mem_cons_self d rest)
          have h0d : (0 : ℚ) ≤ d := hnn d (List.mem_cons_self d rest)
          have hde : d = 0 := le_antisymm (by rw [← hz]; exact hd0) h0d
          rw [hlg, hz, ← hde]
          exact List.mem_cons_self d rest
        · rw [hlg]
          exact hm
      · intro x hx
        rw [hlg]
        exact mem_le_foldl_max _ _ _ hx
  · obtain ⟨st', rec', hrun, hl, hdc, hth, hlg⟩ := run_death_from_empty u sid 10 [25]
    refine ⟨st', rec', hrun, hl, hdc, ?_, ?_⟩
    · rw [hth]
      show (10 : ℚ) + (25 + 0) = 35
      norm_num
    · rw [hlg]
      show max (max (0 : ℚ) 10) 25 = 25
      rw [max_eq_right (by norm_num : (0 : ℚ) ≤ 10),
        max_eq_right (by norm_num : (10 : ℚ) ≤ 25)]

theorem death_aggregation_witness :
    ∃ st' rec', run_death_events "Ann" "1" [10, 25] emptyState = .ok st' ∧
      lookup? st'.player_stats "Ann" = some rec' ∧
      rec'.total_deaths = 2 ∧
      rec'.lifetime_stats.total_hours_survived = 35 ∧
      rec'.lifetime_stats.longest_survival = 25 :=
  (death_aggregation "Ann" "1" [10, 25] (by decide) (by decide)).2.2

/-- C7: after folding any sequence of events through the router, the
lifetime milestone of subject u for skill s equals the running maximum of
the starting milestone and the levels of the level_up events of u for s —
death, respawn and login never lower it — so the milestone never
decreases. -/
theorem skill_milestones_lifetime_max (cfg : Config) (now u s : String)
    (es : List Event) (st st' : AppState) (h : run_events cfg now es st = .ok st') :
    milestoneOfStats st'.player_stats u s =
      (levelsFor es u s).foldl max (milestoneOfStats st.player_stats u s) ∧
    milestoneOfStats st.player_stats u s ≤ milestoneOfStats st'.player_stats u s := by
  have heq := milestone_run_events cfg now u s es st st' h
  exact ⟨heq, by rw [heq]; exact le_foldl_max _ _⟩

theorem skill_milestones_witness :
    ∃ st', run_events cfg0 "t0" esW7 emptyState = Except.ok st' ∧
      milestoneOfStats st'.player_stats "Ann" "Aiming" = 8 := by
  cases hrun : run_events cfg0 "t0" esW7 emptyState with
  | error err =>
    have hok : exceptOk (run_events cfg0 "t0" esW7 emptyState) = true := by decide
    rw [hrun] at hok
    exact absurd hok (by simp [exceptOk])
  | ok st' =>
    refine ⟨st', rfl, ?_⟩
    rw [(skill_milestones_lifetime_max cfg0 "t0" "Ann" "Aiming" esW7
      emptyState st' hrun).1]
    decide

/-- C8: every entry shown on a skill leaderboard comes from
players_with_skill, and every players_with_skill entry of a subject whose
current character is alive carries the live skill level while that of a
dead subject carries the stored lifetime milestone — a dead subject's
stale live skill value is never shown. -/
theorem skill_leaderboard_fallback (stats : List (String × PlayerRecord))
    (skill_name : String) :
    (∀ nv, nv ∈ skill_board stats skill_name →
      nv ∈ players_with_skill stats skill_name) ∧
    (∀ nv, nv ∈ players_with_skill stats skill_name → ∃ rec, (nv.1, rec) ∈ stats ∧
      ((rec.current_character.alive = true ∧
        nv.2 = lookup0 rec.current_character.skills skill_name ∧ 0 < nv.2) ∨
       (rec.current_character.alive = false ∧
        nv.2 = lookup0 rec.lifetime_stats.skill_milestones skill_name ∧ 0 < nv.2))) := by
  constructor
  · intro nv hnv
    unfold skill_board at hnv
    have h1 := List.take_subset _ _ hnv
    rw [mem_py_sorted_desc] at h1
    exact h1
  · intro nv hnv
    obtain ⟨nd, hnd, hcontrib⟩ := (mem_players_with_skill stats skill_name nv).mp hnv
    obtain ⟨hfst, hspec⟩ := pws_contrib_spec skill_name nd nv hcontrib
    refine ⟨nd.2, ?_, ?_⟩
    · rw [hfst]
      exact hnd
    · exact hspec

theorem skill_leaderboard_fallback_witness :
    ∃ rec, ("Bob", rec) ∈ statsW8 ∧
      ((rec.current_character.alive = true ∧
        (5 : Int) = lookup0 rec.current_character.skills "Aiming" ∧ 0 < (5 : Int)) ∨
       (rec.current_character.alive = false ∧
        (5 : Int) = lookup0 rec.lifetime_stats.skill_milestones "Aiming" ∧
        0 < (5 : Int))) :=
  (skill_leaderboard_fallback statsW8 "Aiming").2 ("Bob", 5) (by decide)

/-- C10: the death leaderboard lists only subjects with strictly positive
total_deaths, the hours leaderboard only subjects with strictly positive
lifetime hours, the survival leaderboard renders no line for a subject
whose longest_survival is zero, and when every subject has zero
longest_survival the survival leaderboard is suppressed entirely. -/
theorem leaderboards_positive (stats : List (String × PlayerRecord)) :
    (∀ p ∈ death_board stats, 0 < p.2.total_deaths) ∧
    (∀ p ∈ hours_board stats, 0 < p.2.lifetime_stats.total_hours_survived) ∧
    (∀ p ∈ survival_lines stats, p.2.lifetime_stats.longest_survival ≠ 0) ∧
    ((∀ p ∈ stats, p.2.lifetime_stats.longest_survival = 0) →
      send_leaderboard stats "survival" = .ok none) :=
  ⟨death_board_pos stats, hours_board_pos stats, survival_lines_ne_zero stats,
   survival_suppressed stats⟩

theorem leaderboards_positive_witness :
    send_leaderboard statsW10 "survival" = .ok none :=
  (leaderboards_positive statsW10).2.2.2 (by decide)
